import Mathlib

/-!
Verification development for the background-remover backend
(Kavindu0709Madhushan/background-remover-backend).

The repository is an Express relay: POST /api/remove-bg receives a multipart
upload (multer, dest "uploads/"), forwards it to the Pixian.ai
remove-background endpoint via axios, and answers with a base64 data URI.
The definitions below are a shallow embedding of the primary server variant
(src/BACKEND/server.js, lines 1-353) together with the remove.bg variant
(src/unnamed/part_000) where a claim refers to it.  Library behaviour that
the server relies on (multer's disposition of an upload, axios resolve /
reject semantics, Node's Buffer base64 codec) is embedded explicitly and
documented at each definition.
-/

namespace BgRemover

/-! ## Base64 (Node `Buffer.toString("base64")` / `Buffer.from(_, "base64")`)

Bytes are naturals < 256; the encoder is RFC 4648 base64 with `=` padding,
which is what `Buffer.from(result.data).toString("base64")` produces. -/

/-- The 64-character base64 alphabet, in table order. -/
def b64Alphabet : List Char :=
  ['A', 'B', 'C', 'D', 'E', 'F', 'G', 'H', 'I', 'J', 'K', 'L', 'M',
   'N', 'O', 'P', 'Q', 'R', 'S', 'T', 'U', 'V', 'W', 'X', 'Y', 'Z',
   'a', 'b', 'c', 'd', 'e', 'f', 'g', 'h', 'i', 'j', 'k', 'l', 'm',
   'n', 'o', 'p', 'q', 'r', 's', 't', 'u', 'v', 'w', 'x', 'y', 'z',
   '0', '1', '2', '3', '4', '5', '6', '7', '8', '9', '+', '/']

/-- Character for a 6-bit group. -/
def b64Char (n : Nat) : Char := b64Alphabet.getD n 'A'

/-- Value of a base64 alphabet character; `none` for anything else
(including the padding character). -/
def b64Val (c : Char) : Option Nat :=
  let i := b64Alphabet.indexOf c
  if i < 64 then some i else none

/-- Base64-encode a byte list, three input bytes to four output characters,
padding the final group with `=` as Node's encoder does. -/
def base64Encode : List Nat → List Char
  | [] => []
  | [a] => [b64Char (a / 4), b64Char (a % 4 * 16), '=', '=']
  | [a, b] => [b64Char (a / 4), b64Char (a % 4 * 16 + b / 16), b64Char (b % 16 * 4), '=']
  | a :: b :: c :: rest =>
      b64Char (a / 4) :: b64Char (a % 4 * 16 + b / 16) ::
      b64Char (b % 16 * 4 + c / 64) :: b64Char (c % 64) :: base64Encode rest

/-- Base64-decode a character list, four characters to three bytes, with the
usual `=` padding in the final quantum.  Returns `none` on malformed input. -/
def base64Decode : List Char → Option (List Nat)
  | [] => some []
  | c1 :: c2 :: c3 :: c4 :: rest =>
      match b64Val c1, b64Val c2 with
      | some v1, some v2 =>
          if c3 = '=' then
            if c4 = '=' ∧ rest = [] then some [v1 * 4 + v2 / 16] else none
          else
            match b64Val c3 with
            | some v3 =>
                if c4 = '=' then
                  if rest = [] then some [v1 * 4 + v2 / 16, v2 % 16 * 16 + v3 / 4] else none
                else
                  match b64Val c4 with
                  | some v4 =>
                      match base64Decode rest with
                      | some bs =>
                          some ((v1 * 4 + v2 / 16) :: (v2 % 16 * 16 + v3 / 4) ::
                                (v3 % 4 * 64 + v4) :: bs)
                      | none => none
                  | none => none
            | none => none
      | _, _ => none
  | _ => none

theorem b64Val_b64Char : ∀ n, n < 64 → b64Val (b64Char n) = some n := by decide

theorem b64Char_ne_pad : ∀ n, n < 64 → b64Char n ≠ '=' := by decide

/-- Decoding inverts encoding on genuine byte lists. -/
theorem base64_decode_encode :
    ∀ bs : List Nat, (∀ x ∈ bs, x < 256) → base64Decode (base64Encode bs) = some bs
  | [], _ => rfl
  | [a], h => by
      have ha : a < 256 := h a (by simp)
      have h1 : b64Val (b64Char (a / 4)) = some (a / 4) := b64Val_b64Char _ (by omega)
      have h2 : b64Val (b64Char (a % 4 * 16)) = some (a % 4 * 16) :=
        b64Val_b64Char _ (by omega)
      simp [base64Encode, base64Decode, h1, h2]
      omega
  | [a, b], h => by
      have ha : a < 256 := h a (by simp)
      have hb : b < 256 := h b (by simp)
      have h1 : b64Val (b64Char (a / 4)) = some (a / 4) := b64Val_b64Char _ (by omega)
      have h2 : b64Val (b64Char (a % 4 * 16 + b / 16)) = some (a % 4 * 16 + b / 16) :=
        b64Val_b64Char _ (by omega)
      have h3 : b64Val (b64Char (b % 16 * 4)) = some (b % 16 * 4) :=
        b64Val_b64Char _ (by omega)
      have n3 : ¬b64Char (b % 16 * 4) = '=' := b64Char_ne_pad _ (by omega)
      simp [base64Encode, base64Decode, h1, h2, h3, n3]
      omega
  | a :: b :: c :: rest, h => by
      have ha : a < 256 := h a (by simp)
      have hb : b < 256 := h b (by simp)
      have hc : c < 256 := h c (by simp)
      have ih : base64Decode (base64Encode rest) = some rest :=
        base64_decode_encode rest (by intro x hx; exact h x (by simp [hx]))
      have h1 : b64Val (b64Char (a / 4)) = some (a / 4) := b64Val_b64Char _ (by omega)
      have h2 : b64Val (b64Char (a % 4 * 16 + b / 16)) = some (a % 4 * 16 + b / 16) :=
        b64Val_b64Char _ (by omega)
      have h3 : b64Val (b64Char (b % 16 * 4 + c / 64)) = some (b % 16 * 4 + c / 64) :=
        b64Val_b64Char _ (by omega)
      have h4 : b64Val (b64Char (c % 64)) = some (c % 64) := b64Val_b64Char _ (by omega)
      have n3 : ¬b64Char (b % 16 * 4 + c / 64) = '=' := b64Char_ne_pad _ (by omega)
      have n4 : ¬b64Char (c % 64) = '=' := b64Char_ne_pad _ (by omega)
      simp [base64Decode, h1, h2, h3, h4, n3, n4, ih, base64Encode]
      omega

/-! ## Data model of the primary server (src/BACKEND/server.js, lines 1-353) -/

/-- Environment configuration read by the server: `process.env.PIXIAN_API_KEY`
and `process.env.NODE_ENV`.  `none` models an unset variable. -/
structure Env where
  pixianApiKey : Option String
  nodeEnv : Option String
deriving DecidableEq

/-- JavaScript truthiness of an environment variable: an unset variable and
the empty string are falsy. -/
def jsTruthy : Option String → Bool
  | none => false
  | some s => s != ""

/-- The `req.file` object multer attaches to a request whose file part it
accepted and wrote to temporary storage (dest "uploads/"). -/
structure UploadedFile where
  path : String
  originalname : String
  mimetype : String
  size : Nat
deriving DecidableEq

/-- Behaviour of the remote Pixian endpoint for one call: either an HTTP
response with a status and body bytes, or a network-level failure carrying
the Node error code (e.g. "ETIMEDOUT") and the raw axios error message. -/
inductive ProviderBehavior where
  | http (status : Nat) (data : List Nat)
  | network (code : String) (message : String)
deriving DecidableEq

/-- The fields of a thrown JavaScript error that the catch block at
src/BACKEND/server.js lines 200-249 inspects: `error.message`,
`error.response?.status` and `error.code`. -/
structure JsError where
  message : String
  responseStatus : Option Nat
  code : Option String
deriving DecidableEq

/-- Axios semantics for the call at lines 147-161: with
`validateStatus := fun status => 200 ≤ status ∧ status < 500` the promise
resolves for any status in [200, 500) and rejects otherwise with an error
whose `response.status` is set; a network failure rejects with an error
carrying `code` and no `response`. -/
def axiosPost : ProviderBehavior → Except JsError (Nat × List Nat)
  | .http s d =>
      if 200 ≤ s ∧ s < 500 then .ok (s, d)
      else .error { message := "Request failed with status code " ++ toString s,
                    responseStatus := some s, code := none }
  | .network c m => .error { message := m, responseStatus := none, code := some c }

/-- JSON body and status of a response of the POST /api/remove-bg route;
a field valued `none` is absent from the body (JS `undefined` is dropped
by `res.json`). -/
structure RemoveBgResponse where
  status : Nat
  success : Bool
  error : Option String
  message : Option String
  image : Option String
  details : Option String
deriving DecidableEq

/-- Observable outcome of one POST /api/remove-bg request: the response sent,
whether the provider endpoint was called, and whether the multer temp file
backing the upload is still on disk afterwards. -/
structure RouteResult where
  response : RemoveBgResponse
  providerInvoked : Bool
  tempFileRemains : Bool
deriving DecidableEq

/-- The error message built at lines 168-177 when the resolved provider
response has a non-200 status, before `throw new Error(errorMessage)`. -/
def non200Message (status : Nat) : String :=
  if status = 401 ∨ status = 403 then "Invalid Pixian API key"
  else if status = 429 then "Rate limit exceeded. Please try again later."
  else if status = 402 then "Pixian API credits exhausted"
  else if status = 400 then "Invalid image format"
  else "Failed to remove background"

/-- Status code and message chosen by the catch block, lines 217-242:
`errorMessage` starts as "Failed to remove background" and `statusCode` as
500; `error.response` (if present) overrides the status and maps known
statuses to messages; otherwise known network codes map to 408/503;
otherwise a truthy `error.message` replaces the message (status stays 500). -/
def catchMapping (e : JsError) : Nat × String :=
  match e.responseStatus with
  | some s =>
      (s, if s = 401 ∨ s = 403 then "Invalid or expired Pixian API key"
          else if s = 400 then "Invalid image format or corrupted file"
          else if s = 429 then "Rate limit exceeded. Please try again later."
          else if s = 402 then "Pixian API credits exhausted"
          else "Failed to remove background")
  | none =>
      match e.code with
      | some c =>
          if c = "ECONNABORTED" ∨ c = "ETIMEDOUT" then
            (408, "Request timeout. Please try with a smaller image.")
          else if c = "ENOTFOUND" ∨ c = "ECONNREFUSED" then
            (503, "Cannot connect to Pixian service")
          else (500, if e.message != "" then e.message else "Failed to remove background")
      | none => (500, if e.message != "" then e.message else "Failed to remove background")

/-- Response emitted by the catch block (lines 200-249): the temp file (whose
path is already bound when any throw can happen) is unlinked, then
`res.status(statusCode).json({success:false, error, details})` is sent,
`details` only materialising when NODE_ENV === "development". -/
def catchResponse (env : Env) (e : JsError) : RemoveBgResponse :=
  { status := (catchMapping e).1
    success := false
    error := some (catchMapping e).2
    message := none
    image := none
    details := if env.nodeEnv = some "development" then some e.message else none }

/-- The data-URI head the success path prepends at line 196. -/
def dataUriHead : String := "data:image/png;base64,"

/-- The POST /api/remove-bg handler body, src/BACKEND/server.js lines
109-250.  Order of checks as in the source: missing API key (early 500
return, before `imagePath` is assigned, so the multer temp file — present
exactly when `file` is — is not deleted), missing file (400), then the axios
call; a resolved non-200 response throws a local error that reaches the
catch block with neither `response` nor `code` set; the catch block and the
success path both unlink the temp file. -/
def removeBgHandler (env : Env) (file : Option UploadedFile) (provider : ProviderBehavior) :
    RouteResult :=
  if jsTruthy env.pixianApiKey = false then
    { response := { status := 500, success := false,
                    error := some "Server configuration error",
                    message := some "Pixian API key is not configured",
                    image := none, details := none }
      providerInvoked := false
      tempFileRemains := file.isSome }
  else
    match file with
    | none =>
        { response := { status := 400, success := false,
                        error := some "No image uploaded",
                        message := some "Please select an image file",
                        image := none, details := none }
          providerInvoked := false
          tempFileRemains := false }
    | some _ =>
        match axiosPost provider with
        | .ok (status, data) =>
            if status ≠ 200 then
              { response := catchResponse env
                  { message := non200Message status, responseStatus := none, code := none }
                providerInvoked := true
                tempFileRemains := false }
            else
              { response := { status := 200, success := true, error := none,
                              message := some "Background removed successfully",
                              image := some (dataUriHead ++ String.mk (base64Encode data)),
                              details := none }
                providerInvoked := true
                tempFileRemains := false }
        | .error e =>
            { response := catchResponse env e
              providerInvoked := true
              tempFileRemains := false }

/-! ## Upload middleware (multer configuration, lines 85-106) and the error
middleware (lines 253-281) -/

/-- Allowed MIME types from the fileFilter at line 92. -/
def allowedTypes : List String := ["image/jpeg", "image/jpg", "image/png", "image/webp"]

/-- `limits.fileSize` from line 88: 10 * 1024 * 1024 bytes. -/
def fileSizeLimit : Nat := 10 * 1024 * 1024

/-- An error handed to the express error middleware by the upload layer:
either a `multer.MulterError` with its `code`, or a plain `Error` (which is
what the fileFilter callback passes and what multer forwards verbatim). -/
inductive UploadError where
  | multerFailure (code : String) (message : String)
  | plainFailure (message : String)
deriving DecidableEq

/-- Multer's disposition of a request carrying one candidate file, under the
configuration at lines 85-106 (library contract: the fileFilter runs first
and its callback error is forwarded unwrapped; a file exceeding
`limits.fileSize` aborts with `MulterError("LIMIT_FILE_SIZE")` and multer
removes the partially written file; otherwise the file is stored and the
route handler runs). -/
def multerDisposition (f : UploadedFile) : Except UploadError UploadedFile :=
  if allowedTypes.contains f.mimetype = false then
    .error (.plainFailure "Invalid file type. Only JPEG, PNG and WEBP are allowed.")
  else if fileSizeLimit < f.size then
    .error (.multerFailure "LIMIT_FILE_SIZE" "File too large")
  else .ok f

/-- The error middleware at lines 253-281: `MulterError` with code
LIMIT_FILE_SIZE gets 400 with a fixed message, any other `MulterError` gets
400 with its own message, the CORS error gets 403, and every other error
falls through to 500 "Internal server error". -/
def errorMiddleware (env : Env) (e : UploadError) : RemoveBgResponse :=
  match e with
  | .multerFailure code msg =>
      if code = "LIMIT_FILE_SIZE" then
        { status := 400, success := false,
          error := some "File too large. Maximum size is 10MB",
          message := none, image := none, details := none }
      else
        { status := 400, success := false, error := some msg,
          message := none, image := none, details := none }
  | .plainFailure msg =>
      if msg = "Not allowed by CORS" then
        { status := 403, success := false,
          error := some "CORS error: Origin not allowed",
          message := none, image := none, details := none }
      else
        { status := 500, success := false, error := some "Internal server error",
          message := if env.nodeEnv = some "development" then some msg else none,
          image := none, details := none }

/-- One POST /api/remove-bg request end to end: the upload middleware
disposes of the candidate file (if any), a middleware error short-circuits
to the error middleware without invoking the handler, otherwise the handler
runs. -/
def removeBgRoute (env : Env) (candidate : Option UploadedFile)
    (provider : ProviderBehavior) : RouteResult :=
  match candidate with
  | none => removeBgHandler env none provider
  | some f =>
      match multerDisposition f with
      | .error e =>
          { response := errorMiddleware env e
            providerInvoked := false
            tempFileRemains := false }
      | .ok f' => removeBgHandler env (some f') provider

/-! ## Health endpoints (lines 56-75) -/

/-- JSON values, enough for the health-check bodies. -/
inductive JVal where
  | str (s : String)
  | bool (b : Bool)
  | obj (fields : List (String × JVal))

/-- GET / handler, lines 56-66: status code and body fields in source
order; `now` stands for `new Date().toISOString()`. -/
def rootGetHandler (env : Env) (now : String) : Nat × List (String × JVal) :=
  (200,
   [("status", JVal.str "Server is running"),
    ("timestamp", JVal.str now),
    ("apiKey", JVal.str (if jsTruthy env.pixianApiKey then "Configured ✓" else "Missing ✗")),
    ("endpoints", JVal.obj
      [("health", JVal.str "/api/health"),
       ("removeBackground", JVal.str "/api/remove-bg")])])

/-- GET /api/health handler, lines 68-75. -/
def healthGetHandler (env : Env) (now : String) : Nat × List (String × JVal) :=
  (200,
   [("status", JVal.str "OK"),
    ("service", JVal.str "Pixian Background Remover API"),
    ("timestamp", JVal.str now),
    ("pixianKey", JVal.str (if jsTruthy env.pixianApiKey then "Configured" else "Missing"))])

/-! ## Options of the outbound axios calls (for the timeout/body-size claim) -/

/-- The axios options a provider call is made with, as far as the claim is
concerned: `timeoutMs = none` means the call sets no timeout option (axios
then applies no timeout), and the booleans record whether
`maxContentLength` / `maxBodyLength` are passed as `Infinity`. -/
structure AxiosCallOptions where
  timeoutMs : Option Nat
  maxContentLengthInfinity : Bool
  maxBodyLengthInfinity : Bool
deriving DecidableEq

/-- Options of the Pixian call, src/BACKEND/server.js lines 147-161:
`timeout: 60000`, `maxContentLength: Infinity`, `maxBodyLength: Infinity`. -/
def pixianCallOptions : AxiosCallOptions :=
  { timeoutMs := some 60000, maxContentLengthInfinity := true, maxBodyLengthInfinity := true }

/-- Options of the remove.bg call, src/unnamed/part_000 lines 39-45: only
`headers` and `responseType` are set — no timeout and no body-size options. -/
def removeBgCallOptions : AxiosCallOptions :=
  { timeoutMs := none, maxContentLengthInfinity := false, maxBodyLengthInfinity := false }

/-- All provider invocations the repository makes, one per variant the
claims cite. -/
def providerCalls : List AxiosCallOptions := [pixianCallOptions, removeBgCallOptions]

/-! ## Sample values used by witnesses and counterexamples -/

/-- A well-formed uploaded file as multer would record it. -/
def sampleFile : UploadedFile :=
  { path := "uploads/4a1f2c9be07", originalname := "photo.png",
    mimetype := "image/png", size := 2048 }

/-- A configured environment in production mode. -/
def envProd : Env := { pixianApiKey := some "pxk-test", nodeEnv := some "production" }

/-- A configured environment with NODE_ENV unset. -/
def envPlain : Env := { pixianApiKey := some "pxk-test", nodeEnv := none }

/-- An environment in which PIXIAN_API_KEY is unset. -/
def envNoKey : Env := { pixianApiKey := none, nodeEnv := none }

/-- A candidate upload with a disallowed MIME type. -/
def badMimeFile : UploadedFile :=
  { path := "uploads/5b2d3e0fa18", originalname := "notes.txt",
    mimetype := "text/plain", size := 1000 }

/-- A 15 MiB JPEG candidate upload, above the 10 MiB limit. -/
def oversizedFile : UploadedFile :=
  { path := "uploads/6c3e4f1ab29", originalname := "big.jpg",
    mimetype := "image/jpeg", size := 15 * 1024 * 1024 }

/-! ## Claims -/

/-- C1: the claim says every failure path of POST /api/remove-bg releases the
upload's temp file before responding.  On the configuration-failure path the
code violates this: with PIXIAN_API_KEY unset and a file part present, the
handler returns the 500 configuration error while the multer temp file is
still on disk (`imagePath` is still null when the early return fires, so
neither the success-path nor the catch-path unlink runs). -/
theorem configErrorLeaksTempFile_C1 :
    (removeBgHandler envNoKey (some sampleFile) (ProviderBehavior.http 200 [])).response.status
        = 500
  ∧ (removeBgHandler envNoKey (some sampleFile) (ProviderBehavior.http 200 [])).tempFileRemains
        = true :=
  ⟨rfl, rfl⟩

/-- C2: the claim says a provider response of status 401 yields an endpoint
response of status 401.  In the code, validateStatus accepts all of
[200, 500), so a provider 401 resolves; the handler throws a local `Error`
carrying neither `response` nor `code`, and the catch block therefore leaves
the status at 500.  The endpoint answers 500 (with the authentication
message), not 401. -/
theorem provider401Yields500_C2 :
    (removeBgHandler envPlain (some sampleFile) (ProviderBehavior.http 401 [])).response.status
        = 500
  ∧ (removeBgHandler envPlain (some sampleFile) (ProviderBehavior.http 401 [])).response.error
        = some "Invalid Pixian API key"
  ∧ (removeBgHandler envPlain (some sampleFile) (ProviderBehavior.http 401 [])).response.status
        ≠ 401 :=
  ⟨rfl, rfl, by decide⟩

/-- C3: the claim says every upload over 10 MiB or with a disallowed MIME
type gets status 400 and the provider is never invoked.  The provider is
indeed never invoked, and the oversized upload gets 400, but a disallowed
MIME type gets 500: the fileFilter rejects with a plain `Error`, which is
not a `MulterError`, so the error middleware falls through to
"Internal server error". -/
theorem invalidUploadMapping_C3 :
    (removeBgRoute envPlain (some badMimeFile) (ProviderBehavior.http 200 [])).response.status
        = 500
  ∧ (removeBgRoute envPlain (some badMimeFile) (ProviderBehavior.http 200 [])).response.error
        = some "Internal server error"
  ∧ (removeBgRoute envPlain (some badMimeFile) (ProviderBehavior.http 200 [])).providerInvoked
        = false
  ∧ (removeBgRoute envPlain (some oversizedFile) (ProviderBehavior.http 200 [])).response.status
        = 400
  ∧ (removeBgRoute envPlain (some oversizedFile) (ProviderBehavior.http 200 [])).response.error
        = some "File too large. Maximum size is 10MB"
  ∧ (removeBgRoute envPlain (some oversizedFile) (ProviderBehavior.http 200 [])).providerInvoked
        = false :=
  ⟨rfl, rfl, rfl, rfl, rfl, rfl⟩

/-- C4: when the provider returns bytes B with status 200, the `image` field
of the success response is exactly "data:image/png;base64," followed by the
base64 encoding of B, and stripping that head and base64-decoding recovers
exactly B. -/
theorem successImageRoundTrip_C4 (env : Env) (f : UploadedFile) (B : List Nat)
    (hkey : jsTruthy env.pixianApiKey = true) (hB : ∀ x ∈ B, x < 256) :
    (removeBgHandler env (some f) (ProviderBehavior.http 200 B)).response.image
        = some (dataUriHead ++ String.mk (base64Encode B))
  ∧ (removeBgHandler env (some f) (ProviderBehavior.http 200 B)).response.success = true
  ∧ base64Decode (((dataUriHead ++ String.mk (base64Encode B)).data).drop dataUriHead.length)
        = some B := by
  refine ⟨?_, ?_, ?_⟩
  · simp [removeBgHandler, axiosPost, hkey]
  · simp [removeBgHandler, axiosPost, hkey]
  · have hd : (dataUriHead ++ String.mk (base64Encode B)).data
        = dataUriHead.data ++ base64Encode B := rfl
    have hl : dataUriHead.length = dataUriHead.data.length := rfl
    rw [hd, hl, List.drop_left]
    exact base64_decode_encode B hB

/-- Witness for C4 at the spec's example bytes 0x89 0x50 0x4E. -/
theorem successImageRoundTrip_C4_witness :
    (removeBgHandler envPlain (some sampleFile)
        (ProviderBehavior.http 200 [137, 80, 78])).response.image
      = some (dataUriHead ++ String.mk (base64Encode [137, 80, 78])) :=
  (successImageRoundTrip_C4 envPlain sampleFile [137, 80, 78] (by decide) (by decide)).1

/-- C5: a provider-call timeout (code ECONNABORTED or ETIMEDOUT) is answered
with status 408 and the timeout message, and an unreachable provider (code
ENOTFOUND or ECONNREFUSED) with status 503 and the service-unavailable
message. -/
theorem networkErrorMapping_C5 (env : Env) (f : UploadedFile) (c m : String)
    (hkey : jsTruthy env.pixianApiKey = true) :
    ((c = "ECONNABORTED" ∨ c = "ETIMEDOUT") →
        (removeBgHandler env (some f) (ProviderBehavior.network c m)).response.status = 408
      ∧ (removeBgHandler env (some f) (ProviderBehavior.network c m)).response.error
          = some "Request timeout. Please try with a smaller image.")
  ∧ ((c = "ENOTFOUND" ∨ c = "ECONNREFUSED") →
        (removeBgHandler env (some f) (ProviderBehavior.network c m)).response.status = 503
      ∧ (removeBgHandler env (some f) (ProviderBehavior.network c m)).response.error
          = some "Cannot connect to Pixian service") := by
  constructor
  · rintro (rfl | rfl) <;>
      · constructor <;> simp [removeBgHandler, axiosPost, catchResponse, catchMapping, hkey]
  · rintro (rfl | rfl) <;>
      · constructor <;> simp [removeBgHandler, axiosPost, catchResponse, catchMapping, hkey]

/-- Witness for C5 at a concrete timeout error. -/
theorem networkErrorMapping_C5_witness :
    (removeBgHandler envPlain (some sampleFile)
        (ProviderBehavior.network "ECONNABORTED" "timeout of 60000ms exceeded")).response.status
      = 408 :=
  ((networkErrorMapping_C5 envPlain sampleFile "ECONNABORTED" "timeout of 60000ms exceeded"
      (by decide)).1 (Or.inl rfl)).1

/-- C6 counterexample: in production mode an unclassified provider failure
(here error code EPIPE with raw message "read ECONNRESET") is answered with
the raw error message echoed verbatim in the `error` field, so the caller
does not receive only a sanitized message. -/
theorem rawMessageSurfaces_C6_cex :
    envProd.nodeEnv ≠ some "development"
  ∧ (removeBgHandler envProd (some sampleFile)
        (ProviderBehavior.network "EPIPE" "read ECONNRESET")).response.error
      = some "read ECONNRESET" :=
  ⟨by decide, rfl⟩

/-- C6 (amended): whenever NODE_ENV is not "development", the `details`
field is absent from every response of the POST /api/remove-bg handler. -/
theorem detailsAbsentOutsideDevelopment_C6 (env : Env) (file : Option UploadedFile)
    (provider : ProviderBehavior) (h : env.nodeEnv ≠ some "development") :
    (removeBgHandler env file provider).response.details = none := by
  have hc : ∀ e, (catchResponse env e).details = none := by
    intro e
    simp [catchResponse, h]
  unfold removeBgHandler
  split
  · rfl
  · split
    · rfl
    · split
      · split
        · exact hc _
        · rfl
      · exact hc _

/-- Witness for C6 at a provider 401 in production mode. -/
theorem detailsAbsentOutsideDevelopment_C6_witness :
    (removeBgHandler envProd (some sampleFile)
        (ProviderBehavior.http 401 [])).response.details = none :=
  detailsAbsentOutsideDevelopment_C6 envProd (some sampleFile)
    (ProviderBehavior.http 401 []) (by decide)

/-- C7 counterexample: not every provider invocation carries a bounded
30-60 s timeout — the remove.bg variant sets no timeout option at all. -/
theorem unboundedTimeoutVariant_C7_cex :
    ¬ ∀ o ∈ providerCalls,
        (∃ t, o.timeoutMs = some t ∧ 30000 ≤ t ∧ t ≤ 60000)
      ∧ o.maxContentLengthInfinity = true ∧ o.maxBodyLengthInfinity = true := by
  intro hall
  obtain ⟨⟨t, ht, _⟩, _⟩ := hall removeBgCallOptions (by simp [providerCalls])
  simp [removeBgCallOptions] at ht

/-- C7 (amended): the Pixian invocation (src/BACKEND/server.js) is made with
a 60000 ms timeout, inside the 30-60 s bound, and with unbounded
maxContentLength and maxBodyLength, while the remove.bg invocation
(src/unnamed/part_000) sets no timeout. -/
theorem pixianCallBounds_C7 :
    (∃ t, pixianCallOptions.timeoutMs = some t ∧ 30000 ≤ t ∧ t ≤ 60000)
  ∧ pixianCallOptions.maxContentLengthInfinity = true
  ∧ pixianCallOptions.maxBodyLengthInfinity = true
  ∧ removeBgCallOptions.timeoutMs = none :=
  ⟨⟨60000, rfl, by omega, by omega⟩, rfl, rfl, rfl⟩

/-- C8 counterexample: with PIXIAN_API_KEY unset, a request with no file
part is answered 500 "Server configuration error", not 400
"No image uploaded" — the configuration check runs first. -/
theorem noFileUnconfigured_C8_cex :
    (removeBgHandler envNoKey none (ProviderBehavior.http 200 [])).response.status = 500
  ∧ (removeBgHandler envNoKey none (ProviderBehavior.http 200 [])).response.error
      ≠ some "No image uploaded" :=
  ⟨rfl, by decide⟩

/-- C8 (amended): whenever the Pixian API key is configured (truthy), a
request with no file part is answered 400 with success:false and error
"No image uploaded", and no temp file remains. -/
theorem noFileYields400_C8 (env : Env) (provider : ProviderBehavior)
    (hkey : jsTruthy env.pixianApiKey = true) :
    (removeBgHandler env none provider).response.status = 400
  ∧ (removeBgHandler env none provider).response.success = false
  ∧ (removeBgHandler env none provider).response.error = some "No image uploaded"
  ∧ (removeBgHandler env none provider).tempFileRemains = false := by
  simp [removeBgHandler, hkey]

/-- Witness for C8 in a configured environment. -/
theorem noFileYields400_C8_witness :
    (removeBgHandler envPlain none (ProviderBehavior.http 200 [])).response.status = 400 :=
  (noFileYields400_C8 envPlain (ProviderBehavior.http 200 []) (by decide)).1

/-- C9 counterexample: the GET / body has no "apiKeyConfigured" field (the
code emits a string-valued "apiKey" field instead), so the claimed boolean
apiKeyConfigured field does not exist. -/
theorem rootFieldShape_C9_cex :
    ((rootGetHandler envProd "2026-10-11T00:00:00.000Z").2).lookup "apiKeyConfigured"
      = none :=
  rfl

/-- C9 (amended): GET / always answers 200 with status, timestamp and a
string apiKey field reflecting whether the key is configured, and
GET /api/health always answers 200 with status "OK", service and
timestamp — for every configuration. -/
theorem healthEndpoints_C9 (env : Env) (now : String) :
    (rootGetHandler env now).1 = 200
  ∧ ((rootGetHandler env now).2).lookup "status" = some (JVal.str "Server is running")
  ∧ ((rootGetHandler env now).2).lookup "timestamp" = some (JVal.str now)
  ∧ ((rootGetHandler env now).2).lookup "apiKey"
      = some (JVal.str (if jsTruthy env.pixianApiKey then "Configured ✓" else "Missing ✗"))
  ∧ (healthGetHandler env now).1 = 200
  ∧ ((healthGetHandler env now).2).lookup "status" = some (JVal.str "OK")
  ∧ ((healthGetHandler env now).2).lookup "service"
      = some (JVal.str "Pixian Background Remover API")
  ∧ ((healthGetHandler env now).2).lookup "timestamp" = some (JVal.str now) :=
  ⟨rfl, rfl, rfl, rfl, rfl, rfl, rfl, rfl⟩

/-- C10: with PIXIAN_API_KEY unset, every request reaching the handler —
with or without a file part — is answered with the 500 configuration error,
and the 400 "No image uploaded" response is never produced. -/
theorem unsetKeyAlways500_C10 (env : Env) (file : Option UploadedFile)
    (provider : ProviderBehavior) (h : env.pixianApiKey = none) :
    (removeBgHandler env file provider).response.status = 500
  ∧ (removeBgHandler env file provider).response.error = some "Server configuration error"
  ∧ (removeBgHandler env file provider).response.error ≠ some "No image uploaded" := by
  refine ⟨?_, ?_, ?_⟩ <;> simp [removeBgHandler, jsTruthy, h]

/-- Witness for C10 at a concrete file-less request. -/
theorem unsetKeyAlways500_C10_witness :
    (removeBgHandler envNoKey none (ProviderBehavior.http 200 [])).response.status = 500 :=
  (unsetKeyAlways500_C10 envNoKey none (ProviderBehavior.http 200 []) rfl).1

end BgRemover
